import Mathlib

/-!
Verification development for the christmas-tree interactive scene.

We shallowly embed the gesture classifier, the gesture session controller,
the photo-card spring engine, the particle transition interpolation, the
ornament layout generator and the camera exponential filter, translated
from the TypeScript source, and prove the spec's testable properties
about them.

Numeric conventions: landmark coordinates and spring state are embedded
over ℚ (the source uses IEEE doubles; all claim-relevant computations are
exact field arithmetic).  The source compares Euclidean distances computed
with `Math.sqrt` against positive thresholds; since `sqrt` is strictly
monotone on nonnegative reals, `sqrt s < c ↔ s < c²` for `c > 0`, so the
embedding compares the squared distance against the squared threshold,
which is the same predicate and keeps every definition computable.
Trigonometric / exponential code (ornament azimuth, camera filter) is
embedded over ℝ with `Real.cos`, `Real.sin`, `Real.exp`.
-/

/-- One hand landmark: a 3D point in normalized image coordinates
(`landmarks[i]` in the source, fields `x`, `y`, `z`). -/
structure Landmark where
  x : ℚ
  y : ℚ
  z : ℚ
deriving DecidableEq

/-- Squared Euclidean distance between two landmarks.  The source's
`calculateFingerDistance` returns `Math.sqrt` of this quantity; we keep the
square (see header note on monotonicity of `sqrt`). -/
def calculateFingerDistanceSq (p1 p2 : Landmark) : ℚ :=
  (p1.x - p2.x) ^ 2 + (p1.y - p2.y) ^ 2 + (p1.z - p2.z) ^ 2

/-- The discrete gesture labels (`GestureType` in `@/types/christmas`).
`open` is a Lean keyword, hence the guillemets. -/
inductive GestureType where
  | none
  | fist
  | «open»
  | pinch
  | pointing
deriving DecidableEq, Repr

/-- A finger is "extended" iff its fingertip's y is numerically less than
its MCP joint's y (source: `indexTip.y < indexMcp.y` etc.). -/
def fingerExtended (tip mcp : Landmark) : Bool :=
  decide (tip.y < mcp.y)

/-- The finger-count part of `detectGesture` (source lines 58-81): count
extended fingers among index/middle/ring/pinky; `>= 3` is `open`, `<= 1`
is `fist`, then the only-index test for `pointing`, else `none`. -/
def classifyFingers (indexExtended middleExtended ringExtended pinkyExtended : Bool) :
    GestureType :=
  let extendedCount :=
    (List.filter (fun b => b) [indexExtended, middleExtended, ringExtended, pinkyExtended]).length
  if 3 ≤ extendedCount then GestureType.«open»
  else if extendedCount ≤ 1 then GestureType.fist
  else if indexExtended && !middleExtended && !ringExtended && !pinkyExtended then
    GestureType.pointing
  else GestureType.none

/-- Default landmark used for out-of-range indexing (never reached on
21-point inputs; the source would throw, we totalize with a default). -/
def defaultLandmark : Landmark := ⟨0, 0, 0⟩

/-- Function `detectGesture` (source `part_000` lines 34-82): `none` on short input,
`pinch` when the thumb-tip-to-index-tip distance is below 0.06 (embedded as
squared distance below 0.06² = 36/10000), otherwise classify by the number
of extended non-thumb fingers. -/
def detectGesture (landmarks : List Landmark) : GestureType :=
  if landmarks.length < 21 then GestureType.none
  else
    let thumbTip := landmarks.getD 4 defaultLandmark
    let indexTip := landmarks.getD 8 defaultLandmark
    let middleTip := landmarks.getD 12 defaultLandmark
    let ringTip := landmarks.getD 16 defaultLandmark
    let pinkyTip := landmarks.getD 20 defaultLandmark
    let indexMcp := landmarks.getD 5 defaultLandmark
    let middleMcp := landmarks.getD 9 defaultLandmark
    let ringMcp := landmarks.getD 13 defaultLandmark
    let pinkyMcp := landmarks.getD 17 defaultLandmark
    if calculateFingerDistanceSq thumbTip indexTip < 36 / 10000 then GestureType.pinch
    else
      classifyFingers (fingerExtended indexTip indexMcp) (fingerExtended middleTip middleMcp)
        (fingerExtended ringTip ringMcp) (fingerExtended pinkyTip pinkyMcp)

/-! ## Gesture session controller (`useHandGesture`, source `part_000`) -/

/-- The tracking-state snapshot exposed by the session controller
(`HandGestureState` in `@/types/christmas`).  `pinchDistance` holds the
squared thumb-index distance (see header note); `handPosition` is the
mirrored palm-center or absent. -/
structure HandGestureState where
  gesture : GestureType
  handPosition : Option (ℚ × ℚ)
  pinchDistance : ℚ
  isTracking : Bool
deriving DecidableEq

/-- Full session-controller state: the exposed snapshot plus the
`lastGestureRef` used for edge-triggered change notification. -/
structure SessionState where
  st : HandGestureState
  lastGesture : GestureType
deriving DecidableEq

/-- The edge-trigger of `onResults` (source lines 99-102): given the stored
last gesture and the freshly classified gesture, return the new stored
value and whether the `onGestureChange` callback fires. -/
def processGesture (last gesture : GestureType) : GestureType × Bool :=
  if gesture ≠ last then (gesture, true) else (last, false)

/-- One tracker callback (`onResults`, source lines 84-118).  Input is the
`multiHandLandmarks` list (empty = no hand).  Returns the new session state
and the gesture passed to `onGestureChange`, when it fires. -/
def onResults (s : SessionState) (multiHandLandmarks : List (List Landmark)) :
    SessionState × Option GestureType :=
  match multiHandLandmarks with
  | landmarks :: _ =>
      let gesture := detectGesture landmarks
      let palmCenter := landmarks.getD 9 defaultLandmark
      let handPosition : ℚ × ℚ := (1 - palmCenter.x, palmCenter.y)
      let pinchDistance := calculateFingerDistanceSq (landmarks.getD 4 defaultLandmark)
        (landmarks.getD 8 defaultLandmark)
      let r := processGesture s.lastGesture gesture
      (⟨⟨gesture, Option.some handPosition, pinchDistance, true⟩, r.1⟩,
        if r.2 then Option.some gesture else Option.none)
  | [] =>
      (⟨⟨s.st.gesture, Option.none, s.st.pinchDistance, false⟩, s.lastGesture⟩, Option.none)

/-- Run the edge-trigger over a list of per-frame classifications, recording
after each frame the stored last-gesture value and whether the callback
fired on that frame. -/
def sessionTrace (last : GestureType) (gestures : List GestureType) :
    List (GestureType × Bool) :=
  match gestures with
  | [] => []
  | g :: rest =>
      let r := processGesture last g
      r :: sessionTrace r.1 rest

/-! ## Photo-card spring engine (`PhotoCardMesh.useFrame`, `PhotoCards.tsx`) -/

/-- A 3D vector over ℚ (embedding of `THREE.Vector3` as used by the spring
simulation). -/
structure Vec3 where
  x : ℚ
  y : ℚ
  z : ℚ
deriving DecidableEq

/-- Componentwise vector sum (`THREE.Vector3.add`). -/
def Vec3.add (a b : Vec3) : Vec3 := ⟨a.x + b.x, a.y + b.y, a.z + b.z⟩

/-- Componentwise vector difference (`THREE.Vector3.subVectors`). -/
def Vec3.sub (a b : Vec3) : Vec3 := ⟨a.x - b.x, a.y - b.y, a.z - b.z⟩

/-- Scalar multiple (`THREE.Vector3.multiplyScalar`). -/
def Vec3.smul (c : ℚ) (a : Vec3) : Vec3 := ⟨c * a.x, c * a.y, c * a.z⟩

/-- Squared norm (`THREE.Vector3.length` squared; see header note). -/
def Vec3.normSq (a : Vec3) : ℚ := a.x ^ 2 + a.y ^ 2 + a.z ^ 2

/-- Squared distance (`THREE.Vector3.distanceTo` squared). -/
def Vec3.distSq (a b : Vec3) : ℚ := (a.sub b).normSq

/-- The two scene layouts (`TreeState` in `@/types/christmas`). -/
inductive TreeState where
  | tree
  | galaxy
deriving DecidableEq

/-- Spring simulation state of one photo card (`SpringState` interface,
`PhotoCards.tsx` lines 85-90). -/
structure SpringState where
  position : Vec3
  velocity : Vec3
  scale : ℚ
  scaleVelocity : ℚ
deriving DecidableEq

/-- Constant `SPRING_STIFFNESS` (`PhotoCards.tsx` line 121). -/
def SPRING_STIFFNESS : ℚ := 25

/-- Constant `SPRING_DAMPING` (`PhotoCards.tsx` line 122). -/
def SPRING_DAMPING : ℚ := 8

/-- Constant `SCALE_STIFFNESS` (`PhotoCards.tsx` line 123). -/
def SCALE_STIFFNESS : ℚ := 30

/-- Constant `SCALE_DAMPING` (`PhotoCards.tsx` line 124). -/
def SCALE_DAMPING : ℚ := 10

/-- Target position of a photo card for the current frame
(`PhotoCards.tsx` lines 190-194): the focused spot `(0, 0, 0.8)` when
focused, else the tree or galaxy endpoint according to the layout state. -/
def springTarget (isFocused : Bool) (state : TreeState) (treePosition galaxyPosition : Vec3) :
    Vec3 :=
  if isFocused then ⟨0, 0, 8/10⟩
  else if state = TreeState.tree then treePosition else galaxyPosition

/-- Target scale (`PhotoCards.tsx` line 196): 5 when focused, else 0.4. -/
def springTargetScale (isFocused : Bool) : ℚ :=
  if isFocused then 5 else 4/10

/-- One frame of the photo-card spring simulation, restricted to the spring
state (`PhotoCardMesh.useFrame`, `PhotoCards.tsx` lines 184-230): clamp the
delta-time to 0.033, early-return with the state untouched when position
error, scale error and velocity magnitude are all below the settle
tolerances (the `< 0.01` checks, squared where the source takes a square
root), otherwise semi-implicit Euler integration of the position spring and
the 1-D scale spring. -/
def stepSpring (spring : SpringState) (delta : ℚ) (isFocused : Bool) (state : TreeState)
    (treePosition galaxyPosition : Vec3) : SpringState :=
  let dt := min delta (33/1000)
  let targetPos := springTarget isFocused state treePosition galaxyPosition
  let targetScale := springTargetScale isFocused
  if spring.position.distSq targetPos < 1/10000 ∧ |spring.scale - targetScale| < 1/100 ∧
      spring.velocity.normSq < 1/10000 then
    spring
  else
    let displacement := spring.position.sub targetPos
    let springForce := Vec3.smul (-SPRING_STIFFNESS) displacement
    let dampingForce := Vec3.smul (-SPRING_DAMPING) spring.velocity
    let acceleration := springForce.add dampingForce
    let velocity := spring.velocity.add (Vec3.smul dt acceleration)
    let position := spring.position.add (Vec3.smul dt velocity)
    let scaleAcceleration := -SCALE_STIFFNESS * (spring.scale - targetScale) -
      SCALE_DAMPING * spring.scaleVelocity
    let scaleVelocity := spring.scaleVelocity + scaleAcceleration * dt
    let scale := spring.scale + scaleVelocity * dt
    ⟨position, velocity, scale, scaleVelocity⟩

/-! ## Particle transition interpolation (`ParticleSystem.useFrame`) -/

/-- Staggered local progress of one particle (`ParticleSystem.tsx` lines
154-156): `clamp(progress * 1.5 - delay * 0.5, 0, 1)`. -/
def staggeredProgress (progress delay : ℚ) : ℚ :=
  max 0 (min 1 (progress * (3/2) - delay * (1/2)))

/-- Smoothstep shaping (`ParticleSystem.tsx` line 157): `p² (3 - 2p)`. -/
def smoothstep (p : ℚ) : ℚ := p * p * (3 - 2 * p)

/-- Interpolated particle position (`ParticleSystem.tsx` lines 154-162):
linear blend from the tree endpoint to the galaxy endpoint by the
smoothstepped staggered progress. -/
def particlePosition (progress delay : ℚ) (treePosition galaxyPosition : Vec3) : Vec3 :=
  let smoothProgress := smoothstep (staggeredProgress progress delay)
  ⟨treePosition.x + (galaxyPosition.x - treePosition.x) * smoothProgress,
    treePosition.y + (galaxyPosition.y - treePosition.y) * smoothProgress,
    treePosition.z + (galaxyPosition.z - treePosition.z) * smoothProgress⟩

/-! ## Camera framing controller (`CameraController.useFrame`, scene file) -/

/-- One axis of the exponential low-pass camera filter (`CameraController`
lines 509-513): `position += (target - position) * (1 - e^(-4 * dt))`. -/
noncomputable def camStep (position target dt : ℝ) : ℝ :=
  position + (target - position) * (1 - Real.exp (-4 * dt))

/-! ## Ornament ring layout generator (`generateOrnamentPosition`) -/

/-- Azimuth of ornament `index` (`ParticleSystem.tsx` line 54):
`index * Math.PI * 2.4 + Math.random() * 0.5`, with the `Math.random()`
sample passed explicitly as `rand ∈ [0, 1)`. -/
noncomputable def ornamentAngle (index : ℕ) (rand : ℝ) : ℝ :=
  (index : ℝ) * Real.pi * (24/10) + rand * (5/10)

/-- Generator `generateOrnamentPosition` (`ParticleSystem.tsx` lines 47-61), with the
one `Math.random()` draw passed explicitly as `rand`. -/
noncomputable def generateOrnamentPosition (index total : ℕ) (rand : ℝ) : ℝ × ℝ × ℝ :=
  let height : ℝ := 7
  let maxRadius : ℝ := 32/10
  let t : ℝ := ((index : ℝ) + 5/10) / (total : ℝ)
  let y := t * height - height / 2
  let layerRadius := maxRadius * (1 - t * (9/10))
  let angle := ornamentAngle index rand
  (Real.cos angle * layerRadius * (85/100), y, Real.sin angle * layerRadius * (85/100))

/-- A synthetic 21-point landmark set in which only the index finger is
extended (index tip y = 0 below index MCP y = 1, while middle/ring/pinky
tips sit at y = 1 above their MCPs at y = 0) and the thumb tip is at
distance 1 from the index tip, so the pinch branch does not fire. -/
def onlyIndexLandmarks : List Landmark :=
  [⟨0, 0, 0⟩, ⟨0, 0, 0⟩, ⟨0, 0, 0⟩, ⟨0, 0, 0⟩,
    ⟨0, 0, 0⟩,        -- 4: thumb tip
    ⟨1, 1, 0⟩,        -- 5: index MCP
    ⟨0, 0, 0⟩, ⟨0, 0, 0⟩,
    ⟨1, 0, 0⟩,        -- 8: index tip (above its MCP)
    ⟨0, 0, 0⟩,        -- 9: middle MCP
    ⟨0, 0, 0⟩, ⟨0, 0, 0⟩,
    ⟨0, 1, 0⟩,        -- 12: middle tip (below its MCP)
    ⟨0, 0, 0⟩,        -- 13: ring MCP
    ⟨0, 0, 0⟩, ⟨0, 0, 0⟩,
    ⟨0, 1, 0⟩,        -- 16: ring tip (below its MCP)
    ⟨0, 0, 0⟩,        -- 17: pinky MCP
    ⟨0, 0, 0⟩, ⟨0, 0, 0⟩,
    ⟨0, 1, 0⟩]        -- 20: pinky tip (below its MCP)

/-! ## Theorems -/

/-- C1: the spec says an only-index-extended landmark set (with thumb and
index far apart) classifies as `pointing`; the source's `extendedCount <= 1`
branch returns `fist` first, so the `pointing` branch is unreachable and the
code returns `fist` on exactly that input. -/
theorem detectGesture_only_index_is_fist :
    detectGesture onlyIndexLandmarks = GestureType.fist := by
  norm_num [detectGesture, onlyIndexLandmarks, defaultLandmark, calculateFingerDistanceSq,
    fingerExtended, classifyFingers]

/-- C2: feeding the edge-triggered session controller the classification
sequence [fist, fist, fist, open, open, fist] from an initial stored label
of `none` fires the gesture-change callback exactly 3 times (first fist,
fist-to-open, open-to-fist), and after every frame the stored last-gesture
value equals that frame's classification. -/
theorem sessionTrace_three_notifications :
    sessionTrace GestureType.none
        [GestureType.fist, GestureType.fist, GestureType.fist, GestureType.«open»,
          GestureType.«open», GestureType.fist] =
      [(GestureType.fist, true), (GestureType.fist, false), (GestureType.fist, false),
        (GestureType.«open», true), (GestureType.«open», false), (GestureType.fist, true)] ∧
    (List.filter (fun r => r.2)
        (sessionTrace GestureType.none
          [GestureType.fist, GestureType.fist, GestureType.fist, GestureType.«open»,
            GestureType.«open», GestureType.fist])).length = 3 := by
  constructor <;> rfl

/-- C5: for an object with stagger delay 0.2, tree endpoint (1,2,3) and
galaxy endpoint (4,5,6), the staggered smoothstep interpolation yields
exactly the galaxy endpoint at global progress 1 and exactly the tree
endpoint at global progress 0. -/
theorem particlePosition_endpoints :
    particlePosition 1 (2/10) ⟨1, 2, 3⟩ ⟨4, 5, 6⟩ = ⟨4, 5, 6⟩ ∧
    particlePosition 0 (2/10) ⟨1, 2, 3⟩ ⟨4, 5, 6⟩ = ⟨1, 2, 3⟩ := by
  constructor <;>
    · simp only [particlePosition, staggeredProgress, smoothstep, Vec3.mk.injEq]
      norm_num

/-- C8: on a tracker callback with no hand present, `isTracking` becomes
false and `handPosition` becomes absent, while the stored gesture, the
pinch distance and the last-gesture value are all unchanged and no
gesture-change notification fires. -/
theorem onResults_no_hand (s : SessionState) :
    (onResults s []).1.st.isTracking = false ∧
    (onResults s []).1.st.handPosition = Option.none ∧
    (onResults s []).1.st.gesture = s.st.gesture ∧
    (onResults s []).1.st.pinchDistance = s.st.pinchDistance ∧
    (onResults s []).1.lastGesture = s.lastGesture ∧
    (onResults s []).2 = Option.none :=
  ⟨rfl, rfl, rfl, rfl, rfl, rfl⟩

/-- C10: `detectGesture` never returns `pointing` on any input — the
only-index-extended configuration has extended count 1, which the
`extendedCount <= 1` (fist) branch captures before the pointing branch, so
the effective codomain is {none, fist, open, pinch}. -/
theorem detectGesture_codomain (landmarks : List Landmark) :
    detectGesture landmarks = GestureType.none ∨
    detectGesture landmarks = GestureType.fist ∨
    detectGesture landmarks = GestureType.«open» ∨
    detectGesture landmarks = GestureType.pinch := by
  have h : ∀ a b c d : Bool, classifyFingers a b c d = GestureType.none ∨
      classifyFingers a b c d = GestureType.fist ∨
      classifyFingers a b c d = GestureType.«open» ∨
      classifyFingers a b c d = GestureType.pinch := by decide
  simp only [detectGesture]
  split
  · exact Or.inl rfl
  · split
    · exact Or.inr (Or.inr (Or.inr rfl))
    · exact h _ _ _ _

/-- C4 counterexample: both photo-card springs violate
`damping² ≥ 4·stiffness`: the position spring has 8² = 64 < 100 = 4·25 and
the scale spring has 10² = 100 < 120 = 4·30, so neither damping ratio
reaches 1. -/
theorem spring_constants_discriminant_positive :
    SPRING_DAMPING ^ 2 < 4 * SPRING_STIFFNESS ∧
    SCALE_DAMPING ^ 2 < 4 * SCALE_STIFFNESS := by
  constructor <;> norm_num [SPRING_DAMPING, SPRING_STIFFNESS, SCALE_DAMPING, SCALE_STIFFNESS]

/-- C4 amended: for unit mass, both photo-card springs are underdamped:
the damping ratio `damping / (2·√stiffness)` is strictly below 1, i.e.
`damping < 2·√stiffness`, for the position spring (8 < 2·√25) and the
scale spring (10 < 2·√30). -/
theorem spring_damping_ratio_lt_one :
    (SPRING_DAMPING : ℝ) < 2 * Real.sqrt (SPRING_STIFFNESS : ℝ) ∧
    (SCALE_DAMPING : ℝ) < 2 * Real.sqrt (SCALE_STIFFNESS : ℝ) := by
  constructor
  · have h : Real.sqrt ((SPRING_STIFFNESS : ℚ) : ℝ) = 5 := by
      rw [show ((SPRING_STIFFNESS : ℚ) : ℝ) = 5 ^ 2 by norm_num [SPRING_STIFFNESS]]
      exact Real.sqrt_sq (by norm_num)
    rw [h]
    norm_num [SPRING_DAMPING]
  · have h : (5 : ℝ) < Real.sqrt ((SCALE_STIFFNESS : ℚ) : ℝ) := by
      rw [show ((SCALE_STIFFNESS : ℚ) : ℝ) = 30 by norm_num [SCALE_STIFFNESS]]
      have := Real.lt_sqrt (x := 5) (y := 30) (by norm_num)
      rw [this]
      norm_num
    calc (SCALE_DAMPING : ℝ) = 2 * 5 := by norm_num [SCALE_DAMPING]
    _ < 2 * Real.sqrt ((SCALE_STIFFNESS : ℚ) : ℝ) := by linarith

/-- C3 counterexample: a negative delta-time is not skipped — starting from
position (1,0,0) at rest with target (0,0,0), a frame with delta = −1/100
integrates anyway and mutates the state: the velocity becomes (1/4,0,0)
and the position moves (backwards in time) to (399/400,0,0). -/
theorem stepSpring_negative_dt_mutates :
    stepSpring ⟨⟨1, 0, 0⟩, ⟨0, 0, 0⟩, 4/10, 0⟩ (-1/100) false TreeState.tree
        ⟨0, 0, 0⟩ ⟨0, 0, 0⟩ =
      ⟨⟨399/400, 0, 0⟩, ⟨1/4, 0, 0⟩, 4/10, 0⟩ := by
  norm_num [stepSpring, springTarget, springTargetScale, Vec3.distSq, Vec3.normSq, Vec3.sub,
    Vec3.add, Vec3.smul, SPRING_STIFFNESS, SPRING_DAMPING, SCALE_STIFFNESS, SCALE_DAMPING]

/-- C3 amended: on a frame whose delta-time is exactly zero the spring
simulation state is left unchanged (the integration is a no-op at dt = 0);
negative delta-times, however, are integrated like any other
(`stepSpring_negative_dt_mutates`), the clamp being `min delta 0.033`
with no lower bound. -/
theorem stepSpring_zero_dt (spring : SpringState) (isFocused : Bool) (state : TreeState)
    (treePosition galaxyPosition : Vec3) :
    stepSpring spring 0 isFocused state treePosition galaxyPosition = spring := by
  obtain ⟨⟨px, py, pz⟩, ⟨vx, vy, vz⟩, s, sv⟩ := spring
  simp only [stepSpring]
  rw [show min (0 : ℚ) (33/1000) = 0 by norm_num]
  split
  · rfl
  · simp [Vec3.add, Vec3.smul]

/-- C6: on any frame where the (squared) position error, the scale error
and the (squared) velocity magnitude are all below the settle tolerances
for the current target, the spring simulation state is returned exactly
unchanged, whatever the delta-time — so once settled with an unchanged
target, the state never moves again. -/
theorem stepSpring_settled (spring : SpringState) (delta : ℚ) (isFocused : Bool)
    (state : TreeState) (treePosition galaxyPosition : Vec3)
    (hpos : spring.position.distSq (springTarget isFocused state treePosition galaxyPosition) <
      1/10000)
    (hscale : |spring.scale - springTargetScale isFocused| < 1/100)
    (hvel : spring.velocity.normSq < 1/10000) :
    stepSpring spring delta isFocused state treePosition galaxyPosition = spring := by
  simp only [stepSpring]
  rw [if_pos ⟨hpos, hscale, hvel⟩]

/-- Witness for `stepSpring_settled`: a card resting exactly on its tree
endpoint with zero velocity and target scale satisfies the settle
tolerances, and a frame leaves it unchanged. -/
theorem stepSpring_settled_witness :
    Vec3.distSq (⟨1, 2, 3⟩ : Vec3) (springTarget false TreeState.tree ⟨1, 2, 3⟩ ⟨4, 5, 6⟩) <
      1/10000 ∧
    |(4/10 : ℚ) - springTargetScale false| < 1/100 ∧
    Vec3.normSq ⟨0, 0, 0⟩ < 1/10000 ∧
    stepSpring ⟨⟨1, 2, 3⟩, ⟨0, 0, 0⟩, 4/10, 0⟩ (1/60) false TreeState.tree ⟨1, 2, 3⟩ ⟨4, 5, 6⟩ =
      ⟨⟨1, 2, 3⟩, ⟨0, 0, 0⟩, 4/10, 0⟩ :=
  ⟨by norm_num [Vec3.distSq, Vec3.normSq, Vec3.sub, springTarget],
    by norm_num [springTargetScale],
    by norm_num [Vec3.normSq],
    stepSpring_settled _ _ _ _ _ _
      (by norm_num [Vec3.distSq, Vec3.normSq, Vec3.sub, springTarget])
      (by norm_num [springTargetScale])
      (by norm_num [Vec3.normSq])⟩

/-- C7: the camera's exponential low-pass filter is frame-rate independent:
with a fixed target, one step of size `dt` lands exactly where two
successive steps of size `dt/2` do (exact, in real arithmetic). -/
theorem camStep_framerate_independent (position target dt : ℝ) :
    camStep (camStep position target (dt / 2)) target (dt / 2) =
      camStep position target dt := by
  have h : Real.exp (-4 * (dt / 2)) * Real.exp (-4 * (dt / 2)) = Real.exp (-4 * dt) := by
    rw [← Real.exp_add]
    ring_nf
  simp only [camStep]
  linear_combination (position - target) * h

/-- C9 counterexample: the ornament azimuth contains the random term
`Math.random() * 0.5`, so two invocations with the same index and total
can return different positions: at index 0 of 35, a random draw of 0 puts
the z-coordinate at 0 while a draw of 1/2 makes it strictly positive. -/
theorem generateOrnamentPosition_random_dependent :
    (generateOrnamentPosition 0 35 0).2.2 < (generateOrnamentPosition 0 35 (1/2)).2.2 := by
  simp only [generateOrnamentPosition, ornamentAngle]
  norm_num
  have hs : 0 < Real.sin (1/4 : ℝ) := by
    apply Real.sin_pos_of_pos_of_lt_pi (by norm_num)
    nlinarith [Real.pi_gt_three]
  have hr : (0 : ℝ) < 32/10 * (1 - 5/10 / 35 * (9/10)) * (85/100) := by norm_num
  nlinarith [hs, hr]

/-- C9 amended: the deterministic component of the ornament azimuth is a
fixed per-step increment — consecutive indices differ by exactly 2.4·π for
any value of the random draw — but the azimuth also carries a random
jitter of `rand/2`, so two invocations with the same index and total need
not produce the same position
(`generateOrnamentPosition_random_dependent`). -/
theorem ornamentAngle_fixed_increment (index : ℕ) (rand : ℝ) :
    ornamentAngle (index + 1) rand - ornamentAngle index rand = Real.pi * (24/10) := by
  simp only [ornamentAngle]
  push_cast
  ring


